import Mathlib

/-
Shallow embedding of the LSM9DS1 Raspberry-Pi driver (src/LSM9DS1.cpp,
src/LSM9DS1.h).  Modelling conventions:

* C `float` arithmetic is modelled with exact rationals (`ℚ`); the decimal
  float literals of the source (the magnetometer sensitivity table) are taken
  at their decimal value.
* Machine integers are modelled as `Nat`/`Int`; conversions that the C code
  performs by truncation (`uint8_t`, `int16_t`) are written out explicitly
  (`% 256`, `toInt16`).
* The pigpio I2C transport is modelled by an oracle (`Bus`) giving, for each
  7-bit device address, whether `i2cOpen` succeeds, the result of
  `i2cReadByteData`, and the result of `i2cReadI2CBlockData` (return count
  plus buffer contents).  Every performed register transaction is logged in a
  trace of `Op` values.
* C++ exceptions are modelled by `CppExc`; a thrown `const char*` is
  `CppExc.strExc`, a thrown `int` is `CppExc.intExc`.  A `catch(int)` clause
  only intercepts `intExc` values, exactly as in C++.
* The GPIO/pigpio subsystem is an external collaborator assumed reliable; it
  is modelled only to the extent the claims need it (`GpioState`, `end'`).
-/

/-
Register addresses and identity constants.  `LSM9DS1_Registers.h` is not part
of `src/`; these constants are modelled from the spec's Register Map component
(the chip's fixed register table).  No claim depends on the exact values
beyond the pairing `OFFSET_X_REG_H_M = OFFSET_X_REG_L_M + 1`.
-/
def OFFSET_X_REG_L_M : Nat := 0x05
def OFFSET_X_REG_H_M : Nat := 0x06
def INT2_CTRL : Nat := 0x0D
def WHO_AM_I_XG : Nat := 0x0F
def WHO_AM_I_M : Nat := 0x0F
def CTRL_REG1_G : Nat := 0x10
def CTRL_REG2_G : Nat := 0x11
def CTRL_REG3_G : Nat := 0x12
def ORIENT_CFG_G : Nat := 0x13
def OUT_TEMP_L : Nat := 0x15
def OUT_X_L_G : Nat := 0x18
def CTRL_REG4 : Nat := 0x1E
def CTRL_REG5_XL : Nat := 0x1F
def CTRL_REG6_XL : Nat := 0x20
def CTRL_REG7_XL : Nat := 0x21
def OUT_X_L_XL : Nat := 0x28
def CTRL_REG1_M : Nat := 0x20
def CTRL_REG2_M : Nat := 0x21
def CTRL_REG3_M : Nat := 0x22
def CTRL_REG4_M : Nat := 0x23
def CTRL_REG5_M : Nat := 0x24
def OUT_X_L_M : Nat := 0x28
def WHO_AM_I_AG_RSP : Nat := 0x68
def WHO_AM_I_M_RSP : Nat := 0x3D

/-- Settings structures of src/LSM9DS1.h (fields used by the cpp). -/
structure DeviceSettings where
  agAddress : Nat
  mAddress : Nat
  i2c_bus : Nat
  drdy_gpio : Nat
  initPIGPIO : Bool
deriving DecidableEq

structure GyroSettings where
  scale : Nat
  sampleRate : Nat
  bandwidth : Nat
  lowPowerEnable : Bool
  HPFEnable : Bool
  HPFCutoff : Nat
  flipX : Bool
  flipY : Bool
  flipZ : Bool
  orientation : Nat
  enableX : Bool
  enableY : Bool
  enableZ : Bool
  latchInterrupt : Bool
deriving DecidableEq

structure AccelSettings where
  scale : Nat
  enableX : Bool
  enableY : Bool
  enableZ : Bool
  bandwidth : Int
  highResEnable : Bool
  highResBandwidth : Nat
deriving DecidableEq

structure MagSettings where
  enabled : Bool
  scale : Nat
  sampleRate : Nat
  tempCompensationEnable : Bool
  XYPerformance : Nat
  ZPerformance : Nat
  lowPowerEnable : Bool
deriving DecidableEq

structure TemperatureSettings where
  enabled : Bool
deriving DecidableEq

/-- C++ exceptions by thrown type: `throw someInt` vs `throw "literal"`. -/
inductive CppExc where
  | intExc : Int → CppExc
  | strExc : String → CppExc
deriving DecidableEq

def could_not_open_i2c : String := "Could not open I2C.\n"

/- The other throw-site message literals of src/LSM9DS1.cpp. -/
def byteReadErrMsg : String := "Could not read from i2c."

def blockReadErrMsg : String := "Block read didn't work"

def whoAmIErrMsg : String := "WhoIAm returns wrong result."

/-- One performed I2C register transaction (successful open). -/
inductive Op where
  | rdByte : Nat → Nat → Op
  | rdBlock : Nat → Nat → Nat → Op
  | wr : Nat → Nat → Nat → Op
deriving DecidableEq

/-- The write transactions contained in a trace. -/
def writesOf (ops : List Op) : List Op :=
  ops.filter fun o => match o with
    | Op.wr _ _ _ => true
    | _ => false

/-- Transport oracle: behaviour of the pigpio I2C primitives per address. -/
structure Bus where
  openOK : Nat → Bool
  readByteData : Nat → Nat → Int
  blockRead : Nat → Nat → Nat → Int × List Nat

/-- LSM9DS1::I2CwriteByte: open (throw on failure), write byte data, close. -/
def I2CwriteByte (bus : Bus) (address subAddress data : Nat) :
    List Op × Except CppExc Unit :=
  if bus.openOK address then
    ([Op.wr address subAddress data], Except.ok ())
  else
    ([], Except.error (CppExc.strExc could_not_open_i2c))

/-- LSM9DS1::I2CreadByte: open (throw on failure), read byte data, throw when
the pigpio call returns a negative value, truncate the `int` to `uint8_t`. -/
def I2CreadByte (bus : Bus) (address subAddress : Nat) :
    List Op × Except CppExc Nat :=
  if bus.openOK address then
    let data := bus.readByteData address subAddress
    ([Op.rdByte address subAddress],
      if data < 0 then Except.error (CppExc.strExc byteReadErrMsg)
      else Except.ok (data.toNat % 256))
  else
    ([], Except.error (CppExc.strExc could_not_open_i2c))

/-- LSM9DS1::I2CreadBytes: open (throw on failure), block read, throw when the
returned count differs from the requested count.  The destination buffer holds
bytes, hence the `% 256` view of the oracle's data. -/
def I2CreadBytes (bus : Bus) (address subAddress count : Nat) :
    List Op × Except CppExc (List Nat) :=
  if bus.openOK address then
    let r := bus.blockRead address subAddress count
    ([Op.rdBlock address subAddress count],
      if r.1 ≠ (count : Int) then
        Except.error (CppExc.strExc blockReadErrMsg)
      else Except.ok (r.2.map fun b => b % 256))
  else
    ([], Except.error (CppExc.strExc could_not_open_i2c))

/-- Raw driver state: the LSM9DS1 class members of src/LSM9DS1.h. -/
structure Driver where
  device : DeviceSettings
  gyro : GyroSettings
  accel : AccelSettings
  mag : MagSettings
  temp : TemperatureSettings
  gRes : ℚ
  aRes : ℚ
  mRes : ℚ
  gx : Int
  gy : Int
  gz : Int
  ax : Int
  ay : Int
  az : Int
  mx : Int
  my : Int
  mz : Int
  temperature : Int
  lsm9ds1Callback : Bool
deriving DecidableEq

/-- Wrappers bound to the accel/gyro sub-device address. -/
def xgWriteByte (bus : Bus) (st : Driver) (subAddress data : Nat) :
    List Op × Except CppExc Unit :=
  I2CwriteByte bus st.device.agAddress subAddress data

def xgReadByte (bus : Bus) (st : Driver) (subAddress : Nat) :
    List Op × Except CppExc Nat :=
  I2CreadByte bus st.device.agAddress subAddress

def xgReadBytes (bus : Bus) (st : Driver) (subAddress count : Nat) :
    List Op × Except CppExc (List Nat) :=
  I2CreadBytes bus st.device.agAddress subAddress count

/-- Wrappers bound to the magnetometer sub-device address. -/
def mWriteByte (bus : Bus) (st : Driver) (subAddress data : Nat) :
    List Op × Except CppExc Unit :=
  I2CwriteByte bus st.device.mAddress subAddress data

def mReadByte (bus : Bus) (st : Driver) (subAddress : Nat) :
    List Op × Except CppExc Nat :=
  I2CreadByte bus st.device.mAddress subAddress

def mReadBytes (bus : Bus) (st : Driver) (subAddress count : Nat) :
    List Op × Except CppExc (List Nat) :=
  I2CreadBytes bus st.device.mAddress subAddress count

/-- `float magSensitivity[4] = 0.00014, 0.00029, 0.00043, 0.00058`. -/
def magSensitivity : List ℚ := [14 / 100000, 29 / 100000, 43 / 100000, 58 / 100000]

/-- LSM9DS1::calcgRes: gRes = ((float) gyro.scale) / 32768.0. -/
def calcgRes (st : Driver) : Driver :=
  { st with gRes := (st.gyro.scale : ℚ) / 32768 }

/-- LSM9DS1::calcaRes: aRes = ((float) accel.scale) / 32768.0. -/
def calcaRes (st : Driver) : Driver :=
  { st with aRes := (st.accel.scale : ℚ) / 32768 }

/-- LSM9DS1::calcmRes: switch on mag.scale over the sensitivity table; a value
outside 4/8/12/16 leaves mRes untouched (the C switch has no default). -/
def calcmRes (st : Driver) : Driver :=
  if st.mag.scale = 4 then { st with mRes := magSensitivity.getD 0 0 }
  else if st.mag.scale = 8 then { st with mRes := magSensitivity.getD 1 0 }
  else if st.mag.scale = 12 then { st with mRes := magSensitivity.getD 2 0 }
  else if st.mag.scale = 16 then { st with mRes := magSensitivity.getD 3 0 }
  else st

/-- LSM9DS1::calcGyro: gRes * gyro.  Pure: a plain function of the state and
the raw reading, no transport access, no state update. -/
def calcGyro (st : Driver) (gyro : Int) : ℚ :=
  st.gRes * gyro

/-- LSM9DS1::calcAccel: aRes * accel. -/
def calcAccel (st : Driver) (accel : Int) : ℚ :=
  st.aRes * accel

/-- LSM9DS1::calcMag: mRes * mag. -/
def calcMag (st : Driver) (mag : Int) : ℚ :=
  st.mRes * mag

/-- A concrete driver state used by witnesses. -/
def witnessDriver : Driver :=
  { device := { agAddress := 0x6B, mAddress := 0x1E, i2c_bus := 1,
                drdy_gpio := 22, initPIGPIO := true }
    gyro := { scale := 245, sampleRate := 1, bandwidth := 0,
              lowPowerEnable := false, HPFEnable := false, HPFCutoff := 0,
              flipX := false, flipY := false, flipZ := false, orientation := 0,
              enableX := true, enableY := true, enableZ := true,
              latchInterrupt := true }
    accel := { scale := 16, enableX := true, enableY := true, enableZ := true,
               bandwidth := -1, highResEnable := false, highResBandwidth := 0 }
    mag := { enabled := true, scale := 4, sampleRate := 7,
             tempCompensationEnable := false, XYPerformance := 3,
             ZPerformance := 3, lowPowerEnable := false }
    temp := { enabled := true }
    gRes := 0, aRes := 0, mRes := 0
    gx := 0, gy := 0, gz := 0, ax := 0, ay := 0, az := 0
    mx := 0, my := 0, mz := 0, temperature := 0
    lsm9ds1Callback := false }

/-- int → int16_t truncation (two's complement wrap), used where the C code
assigns a wider expression to an `int16_t` member. -/
def toInt16 (n : Nat) : Int :=
  if n % 65536 < 32768 then ((n % 65536 : Nat) : Int)
  else ((n % 65536 : Nat) : Int) - 65536

/-- int16_t → low 16 bits as they appear to C bitwise operators. -/
def toUInt16 (i : Int) : Nat := (i % 65536).toNat

/-- One driver-level step: performed transactions, resulting object state, and
the exception escaping the call, if any.  C++ exception propagation does not
roll the object's fields back, so the state is kept even on a throw. -/
structure DStep where
  ops : List Op
  st : Driver
  exc : Option CppExc
deriving DecidableEq

/-- Lift a state-preserving transport call to a driver step. -/
def wstep (st : Driver) (w : List Op × Except CppExc Unit) : DStep :=
  match w with
  | (ops, Except.ok _) => ⟨ops, st, none⟩
  | (ops, Except.error e) => ⟨ops, st, some e⟩

/-- Sequencing of driver steps: an escaped exception aborts the rest. -/
def dseq (a : DStep) (f : Driver → DStep) : DStep :=
  match a.exc with
  | some _ => a
  | none =>
    let b := f a.st
    ⟨a.ops ++ b.ops, b.st, b.exc⟩

/-- CTRL_REG1_G scale bits: the switch in initGyro/setGyroScale (500 → 01,
2000 → 11, anything else → 00 = 245 dps). -/
def gyroScaleBits (scale : Nat) : Nat :=
  if scale = 500 then 0x1 <<< 3 else if scale = 2000 then 0x3 <<< 3 else 0

def ctrlReg1GValue (g : GyroSettings) : Nat :=
  (((g.sampleRate &&& 0x07) <<< 5) ||| gyroScaleBits g.scale) ||| (g.bandwidth &&& 0x3)

def ctrlReg3GValue (g : GyroSettings) : Nat :=
  (if g.lowPowerEnable then 1 <<< 7 else 0) |||
    (if g.HPFEnable then (1 <<< 6) ||| (g.HPFCutoff &&& 0x0F) else 0)

def ctrlReg4Value (g : GyroSettings) : Nat :=
  (((if g.enableZ then 1 <<< 5 else 0) ||| (if g.enableY then 1 <<< 4 else 0)) |||
    (if g.enableX then 1 <<< 3 else 0)) ||| (if g.latchInterrupt then 1 <<< 1 else 0)

def orientCfgGValue (g : GyroSettings) : Nat :=
  ((if g.flipX then 1 <<< 5 else 0) ||| (if g.flipY then 1 <<< 4 else 0)) |||
    (if g.flipZ then 1 <<< 3 else 0)

/-- LSM9DS1::initGyro: six control-register writes. -/
def initGyro (bus : Bus) (st : Driver) : DStep :=
  dseq (wstep st (xgWriteByte bus st CTRL_REG1_G (ctrlReg1GValue st.gyro))) fun st =>
  dseq (wstep st (xgWriteByte bus st CTRL_REG2_G 0x00)) fun st =>
  dseq (wstep st (xgWriteByte bus st CTRL_REG3_G (ctrlReg3GValue st.gyro))) fun st =>
  dseq (wstep st (xgWriteByte bus st CTRL_REG4 (ctrlReg4Value st.gyro))) fun st =>
  dseq (wstep st (xgWriteByte bus st ORIENT_CFG_G (orientCfgGValue st.gyro))) fun st =>
  wstep st (xgWriteByte bus st INT2_CTRL 2)

/-- CTRL_REG6_XL scale bits: 4 → 10, 8 → 11, 16 → 01, anything else → 00 = 2g. -/
def accelScaleBits (scale : Nat) : Nat :=
  if scale = 4 then 0x2 <<< 3 else if scale = 8 then 0x3 <<< 3
  else if scale = 16 then 0x1 <<< 3 else 0

def ctrlReg5XLValue (a : AccelSettings) : Nat :=
  ((if a.enableZ then 1 <<< 5 else 0) ||| (if a.enableY then 1 <<< 4 else 0)) |||
    (if a.enableX then 1 <<< 3 else 0)

/-- CTRL_REG6_XL: the cpp uses the dummy constant sampleRate = 1 in the top
bits; the bandwidth branch tests the signed int8 field against 0. -/
def ctrlReg6XLValue (a : AccelSettings) : Nat :=
  let t := ((1 &&& 0x07) <<< 5) ||| accelScaleBits a.scale
  if 0 ≤ a.bandwidth then (t ||| (1 <<< 2)) ||| (a.bandwidth.toNat &&& 0x03)
  else t

def ctrlReg7XLValue (a : AccelSettings) : Nat :=
  if a.highResEnable then (1 <<< 7) ||| ((a.highResBandwidth &&& 0x3) <<< 5) else 0

/-- LSM9DS1::initAccel: three control-register writes. -/
def initAccel (bus : Bus) (st : Driver) : DStep :=
  dseq (wstep st (xgWriteByte bus st CTRL_REG5_XL (ctrlReg5XLValue st.accel))) fun st =>
  dseq (wstep st (xgWriteByte bus st CTRL_REG6_XL (ctrlReg6XLValue st.accel))) fun st =>
  wstep st (xgWriteByte bus st CTRL_REG7_XL (ctrlReg7XLValue st.accel))

def ctrlReg1MValue (m : MagSettings) : Nat :=
  ((if m.tempCompensationEnable then 1 <<< 7 else 0) |||
    ((m.XYPerformance &&& 0x3) <<< 5)) ||| ((m.sampleRate &&& 0x7) <<< 2)

/-- CTRL_REG2_M scale bits: 8 → 01, 12 → 10, 16 → 11, anything else → 00 = 4 gauss. -/
def magScaleBits (scale : Nat) : Nat :=
  if scale = 8 then 0x1 <<< 5 else if scale = 12 then 0x2 <<< 5
  else if scale = 16 then 0x3 <<< 5 else 0

def ctrlReg3MValue (m : MagSettings) : Nat :=
  (if m.lowPowerEnable then 1 <<< 5 else 0) ||| (0 &&& 0x3)

def ctrlReg4MValue (m : MagSettings) : Nat :=
  (m.ZPerformance &&& 0x3) <<< 2

/-- LSM9DS1::initMag: five control-register writes. -/
def initMag (bus : Bus) (st : Driver) : DStep :=
  dseq (wstep st (mWriteByte bus st CTRL_REG1_M (ctrlReg1MValue st.mag))) fun st =>
  dseq (wstep st (mWriteByte bus st CTRL_REG2_M (magScaleBits st.mag.scale))) fun st =>
  dseq (wstep st (mWriteByte bus st CTRL_REG3_M (ctrlReg3MValue st.mag))) fun st =>
  dseq (wstep st (mWriteByte bus st CTRL_REG4_M (ctrlReg4MValue st.mag))) fun st =>
  wstep st (mWriteByte bus st CTRL_REG5_M 0)

/-- LSM9DS1::begin: store the settings, compute the resolutions, read both
WHO_AM_I bytes, compare their concatenation with the expected constant (throw
on mismatch), then program all control registers.  The pigpio/GPIO calls of
begin are external-collaborator operations with no register transactions and
are assumed reliable (spec sections 1 and 6). -/
def begin (bus : Bus) (st0 : Driver) (gyroSettings : GyroSettings)
    (accelSettings : AccelSettings) (magSettings : MagSettings)
    (temperatureSettings : TemperatureSettings) : DStep :=
  let st1 := { st0 with accel := accelSettings, gyro := gyroSettings,
                        mag := magSettings, temp := temperatureSettings }
  let st2 := calcaRes (calcmRes (calcgRes st1))
  match mReadByte bus st2 WHO_AM_I_M with
  | (ops1, Except.error e) => ⟨ops1, st2, some e⟩
  | (ops1, Except.ok mTest) =>
    match xgReadByte bus st2 WHO_AM_I_XG with
    | (ops2, Except.error e) => ⟨ops1 ++ ops2, st2, some e⟩
    | (ops2, Except.ok xgTest) =>
      if (xgTest <<< 8) ||| mTest ≠ (WHO_AM_I_AG_RSP <<< 8) ||| WHO_AM_I_M_RSP then
        ⟨ops1 ++ ops2, st2, some (CppExc.strExc whoAmIErrMsg)⟩
      else
        dseq ⟨ops1 ++ ops2, st2, none⟩ fun st =>
        dseq (initGyro bus st) fun st =>
        dseq (initAccel bus st) fun st =>
        initMag bus st

/-- LSM9DS1::readGyro (no-argument burst form).  The try-block catches only
`int` exceptions; the transport throws `const char*` values, which escape. -/
def readGyro (bus : Bus) (st : Driver) : DStep :=
  match xgReadBytes bus st OUT_X_L_G 6 with
  | (ops, Except.ok t) =>
      ⟨ops, { st with gx := toInt16 ((t.getD 1 0 <<< 8) ||| t.getD 0 0),
                      gy := toInt16 ((t.getD 3 0 <<< 8) ||| t.getD 2 0),
                      gz := toInt16 ((t.getD 5 0 <<< 8) ||| t.getD 4 0) }, none⟩
  | (ops, Except.error (CppExc.intExc _)) =>
      ⟨ops, { st with gx := 9999, gy := 9999, gz := 9999 }, none⟩
  | (ops, Except.error e) => ⟨ops, st, some e⟩

/-- LSM9DS1::readAccel (no-argument burst form), same catch(int) structure. -/
def readAccel (bus : Bus) (st : Driver) : DStep :=
  match xgReadBytes bus st OUT_X_L_XL 6 with
  | (ops, Except.ok t) =>
      ⟨ops, { st with ax := toInt16 ((t.getD 1 0 <<< 8) ||| t.getD 0 0),
                      ay := toInt16 ((t.getD 3 0 <<< 8) ||| t.getD 2 0),
                      az := toInt16 ((t.getD 5 0 <<< 8) ||| t.getD 4 0) }, none⟩
  | (ops, Except.error (CppExc.intExc _)) =>
      ⟨ops, { st with ax := 999, ay := 999, az := 999 }, none⟩
  | (ops, Except.error e) => ⟨ops, st, some e⟩

/-- LSM9DS1::readMag (no-argument burst form): early return when the
magnetometer is disabled; no try/catch at all. -/
def readMag (bus : Bus) (st : Driver) : DStep :=
  if !st.mag.enabled then ⟨[], st, none⟩
  else match mReadBytes bus st OUT_X_L_M 6 with
  | (ops, Except.ok t) =>
      ⟨ops, { st with mx := toInt16 ((t.getD 1 0 <<< 8) ||| t.getD 0 0),
                      my := toInt16 ((t.getD 3 0 <<< 8) ||| t.getD 2 0),
                      mz := toInt16 ((t.getD 5 0 <<< 8) ||| t.getD 4 0) }, none⟩
  | (ops, Except.error e) => ⟨ops, st, some e⟩

/-- LSM9DS1::readTemp: early return when disabled; no try/catch. -/
def readTemp (bus : Bus) (st : Driver) : DStep :=
  if !st.temp.enabled then ⟨[], st, none⟩
  else match xgReadBytes bus st OUT_TEMP_L 2 with
  | (ops, Except.ok t) =>
      ⟨ops, { st with temperature := toInt16 ((t.getD 1 0 <<< 8) ||| t.getD 0 0) }, none⟩
  | (ops, Except.error e) => ⟨ops, st, some e⟩

structure LSM9DS1Sample where
  ax : ℚ
  ay : ℚ
  az : ℚ
  gx : ℚ
  gy : ℚ
  gz : ℚ
  mx : ℚ
  my : ℚ
  mz : ℚ
  temperature : ℚ
deriving DecidableEq

/-- C `round` (half away from zero). -/
def cRound (q : ℚ) : Int :=
  if 0 ≤ q then ⌊q + 1 / 2⌋ else -⌊-q + 1 / 2⌋

/-- The sample built inside dataReady from the current raw state. -/
def buildSample (st : Driver) : LSM9DS1Sample :=
  { gx := calcGyro st st.gx, gy := calcGyro st st.gy, gz := calcGyro st st.gz,
    ax := calcAccel st st.ax, ay := calcAccel st st.ay, az := calcAccel st st.az,
    mx := calcMag st st.mx, my := calcMag st st.my, mz := calcMag st st.mz,
    temperature := ((cRound (((st.temperature : ℚ) / 16 + 25) * 10) : ℚ) / 10) }

/-- LSM9DS1::dataReady: early return when no callback is registered, else the
four burst reads in order, then one sample delivered to the callback. -/
def dataReady (bus : Bus) (st : Driver) : DStep × Option LSM9DS1Sample :=
  if !st.lsm9ds1Callback then (⟨[], st, none⟩, none)
  else
    let r := dseq (readGyro bus st) fun st =>
             dseq (readAccel bus st) fun st =>
             dseq (readMag bus st) fun st =>
             readTemp bus st
    match r.exc with
    | some _ => (r, none)
    | none => (r, some (buildSample r.st))

/-- The GPIO-side resources `end` releases. -/
structure GpioState where
  isrRegistered : Bool
  pigpioInitialized : Bool
deriving DecidableEq

/-- LSM9DS1::end: cancel the data-ready ISR, then gpioTerminate when the
driver had initialised pigpio.  No I2C register transaction is performed. -/
def end' (dev : DeviceSettings) (g : GpioState) : GpioState × List Op :=
  ({ isrRegistered := false,
     pigpioInitialized := if DeviceSettings.initPIGPIO dev then false else g.pigpioInitialized }, [])

/-- LSM9DS1::magOffset: early return for axis > 2; otherwise write low byte
then high byte of the int16 offset to the axis-indexed offset register pair. -/
def magOffset (bus : Bus) (st : Driver) (axis : Nat) (offset : Int) : DStep :=
  if axis > 2 then ⟨[], st, none⟩
  else
    let msb := (toUInt16 offset &&& 0xFF00) >>> 8
    let lsb := toUInt16 offset &&& 0x00FF
    dseq (wstep st (mWriteByte bus st (OFFSET_X_REG_L_M + 2 * axis) lsb)) fun st =>
    wstep st (mWriteByte bus st (OFFSET_X_REG_H_M + 2 * axis) msb)

/-- LSM9DS1::setGyroScale: read CTRL_REG1_G, clear bits 3-4, set the encoding
of the requested scale (default branch: store 245), write back, recompute gRes. -/
def setGyroScale (bus : Bus) (st : Driver) (gScl : Nat) : DStep :=
  match xgReadByte bus st CTRL_REG1_G with
  | (ops, Except.error e) => ⟨ops, st, some e⟩
  | (ops, Except.ok r) =>
    let masked := r &&& 0xE7
    let p : Nat × Nat :=
      if gScl = 500 then (masked ||| (0x1 <<< 3), gScl)
      else if gScl = 2000 then (masked ||| (0x3 <<< 3), gScl)
      else (masked, 245)
    let st := { st with gyro := { st.gyro with scale := p.2 } }
    dseq ⟨ops, st, none⟩ fun st =>
    dseq (wstep st (xgWriteByte bus st CTRL_REG1_G p.1)) fun st =>
    ⟨[], calcgRes st, none⟩

/-- LSM9DS1::setAccelScale: read CTRL_REG6_XL, clear bits 3-4, set the
encoding (default branch: store 2), write back, recompute aRes. -/
def setAccelScale (bus : Bus) (st : Driver) (aScl : Nat) : DStep :=
  match xgReadByte bus st CTRL_REG6_XL with
  | (ops, Except.error e) => ⟨ops, st, some e⟩
  | (ops, Except.ok r) =>
    let masked := r &&& 0xE7
    let p : Nat × Nat :=
      if aScl = 4 then (masked ||| (0x2 <<< 3), aScl)
      else if aScl = 8 then (masked ||| (0x3 <<< 3), aScl)
      else if aScl = 16 then (masked ||| (0x1 <<< 3), aScl)
      else (masked, 2)
    let st := { st with accel := { st.accel with scale := p.2 } }
    dseq ⟨ops, st, none⟩ fun st =>
    dseq (wstep st (xgWriteByte bus st CTRL_REG6_XL p.1)) fun st =>
    ⟨[], calcaRes st, none⟩

/-- LSM9DS1::setMagScale: read CTRL_REG2_M, clear bits 5-6 (mask
0xFF ^ (0x3 << 5)), set the encoding (default branch: store 4), write back,
recompute mRes. -/
def setMagScale (bus : Bus) (st : Driver) (mScl : Nat) : DStep :=
  match mReadByte bus st CTRL_REG2_M with
  | (ops, Except.error e) => ⟨ops, st, some e⟩
  | (ops, Except.ok r) =>
    let masked := r &&& (0xFF ^^^ (0x3 <<< 5))
    let p : Nat × Nat :=
      if mScl = 8 then (masked ||| (0x1 <<< 5), mScl)
      else if mScl = 12 then (masked ||| (0x2 <<< 5), mScl)
      else if mScl = 16 then (masked ||| (0x3 <<< 5), mScl)
      else (masked, 4)
    let st := { st with mag := { st.mag with scale := p.2 } }
    dseq ⟨ops, st, none⟩ fun st =>
    dseq (wstep st (mWriteByte bus st CTRL_REG2_M p.1)) fun st =>
    ⟨[], calcmRes st, none⟩

/-- A transport oracle where every transaction succeeds and data reads return 0. -/
def allOKBus : Bus :=
  { openOK := fun _ => true,
    readByteData := fun _ _ => 0,
    blockRead := fun _ _ count => ((count : Int), List.replicate count 0) }

/-- A transport oracle whose block reads return 0 bytes (short read). -/
def shortBus : Bus :=
  { openOK := fun _ => true,
    readByteData := fun _ _ => 0,
    blockRead := fun _ _ _ => (0, []) }

/-- A transport oracle answering the WHO_AM_I reads with the expected identity
bytes (0x3D from the magnetometer address, 0x68 from the accel/gyro address). -/
def whoAmIGoodBus : Bus :=
  { openOK := fun _ => true,
    readByteData := fun address _ => if address = 0x1E then 0x3D else 0x68,
    blockRead := fun _ _ count => ((count : Int), List.replicate count 0) }

/-- A transport oracle answering both WHO_AM_I reads with 0. -/
def whoAmIBadBus : Bus :=
  { openOK := fun _ => true,
    readByteData := fun _ _ => 0,
    blockRead := fun _ _ count => ((count : Int), List.replicate count 0) }

/-- Witness state with the magnetometer disabled and a consumer registered. -/
def witnessDriverMagOff : Driver :=
  { witnessDriver with mag := { witnessDriver.mag with enabled := false },
                       lsm9ds1Callback := true }

/-- Witness state with stale raw accelerometer values and a consumer. -/
def staleDriver : Driver :=
  { witnessDriver with ax := 7, ay := 7, az := 7, lsm9ds1Callback := true }

/-- Gyroscope settings carrying the out-of-domain scale value 100. -/
def gyroSettings100 : GyroSettings :=
  { witnessDriver.gyro with scale := 100 }

/-- Decode of the CTRL_REG1_G scale field, inverse of the encodings the code
writes (00 → 245 dps, 01 → 500 dps, 11 → 2000 dps). -/
def gyroScaleOfBits (b : Nat) : Nat :=
  if b = 0x08 then 500 else if b = 0x18 then 2000 else if b = 0 then 245 else 0

/-- Decode of the CTRL_REG6_XL scale field (00 → 2g, 10 → 4g, 11 → 8g, 01 → 16g). -/
def accelScaleOfBits (b : Nat) : Nat :=
  if b = 0x10 then 4 else if b = 0x18 then 8 else if b = 0x08 then 16
  else if b = 0 then 2 else 0

/-- Decode of the CTRL_REG2_M scale field (00 → 4, 01 → 8, 10 → 12, 11 → 16 gauss). -/
def magScaleOfBits (b : Nat) : Nat :=
  if b = 0x20 then 8 else if b = 0x40 then 12 else if b = 0x60 then 16
  else if b = 0 then 4 else 0

/- Bitwise helper lemmas shared by several proofs. -/
theorem nat_and_or_right (x y z : Nat) : (x ||| y) &&& z = (x &&& z) ||| (y &&& z) := by
  apply Nat.eq_of_testBit_eq; intro i
  simp only [Nat.testBit_and, Nat.testBit_or]
  cases x.testBit i <;> cases y.testBit i <;> cases z.testBit i <;> rfl

theorem highByte_shift (n : Nat) : (n &&& 0xFF00) >>> 8 = (n >>> 8) &&& 0xFF := by
  apply Nat.eq_of_testBit_eq; intro i
  have h2 : Nat.testBit 0xFF00 (8 + i) = Nat.testBit 0xFF i := by
    rw [show (0xFF00 : Nat) = 0xFF <<< 8 by norm_num [Nat.shiftLeft_eq],
      Nat.testBit_shiftLeft]
    simp
  rw [Nat.testBit_shiftRight, Nat.testBit_and, Nat.testBit_and,
    Nat.testBit_shiftRight, h2]

/-- C5: a burst read of N bytes that the transport truncates to fewer than N
bytes surfaces as a failure (the thrown block-read error); it is never an
`ok` result holding only the received bytes. -/
theorem shortRead_is_failure (bus : Bus) (address subAddress count : Nat)
    (hopen : bus.openOK address = true)
    (hshort : (bus.blockRead address subAddress count).1 < (count : Int)) :
    (I2CreadBytes bus address subAddress count).2 =
      Except.error (CppExc.strExc blockReadErrMsg) := by
  have hne : (bus.blockRead address subAddress count).1 ≠ (count : Int) := ne_of_lt hshort
  simp [I2CreadBytes, hopen, hne]

/-- Witness for C5: a 6-byte gyroscope burst against a transport that
returns 0 bytes. -/
theorem shortRead_is_failure_witness :
    (I2CreadBytes shortBus 0x6B OUT_X_L_G 6).2 =
      Except.error (CppExc.strExc blockReadErrMsg) :=
  shortRead_is_failure shortBus 0x6B OUT_X_L_G 6 rfl (by norm_num [shortBus])

/-- C6: when no Sample Consumer is registered, a data-ready event performs
zero transport transactions, leaves the state unchanged and delivers no
sample. -/
theorem dataReady_noConsumer (bus : Bus) (st : Driver)
    (h : st.lsm9ds1Callback = false) :
    dataReady bus st = (⟨[], st, none⟩, none) := by
  simp [dataReady, h]

/-- Witness for C6. -/
theorem dataReady_noConsumer_witness :
    dataReady allOKBus witnessDriver = (⟨[], witnessDriver, none⟩, none) :=
  dataReady_noConsumer allOKBus witnessDriver rfl

/-- C7: calling end twice has the observable effect of calling it once: the
second call performs no register writes, the resource state is the same after
one call and after two, and no error is raised (the function is total and
exception-free by construction). -/
theorem end_idempotent (dev : DeviceSettings) (g : GpioState) :
    end' dev (end' dev g).1 = end' dev g ∧ (end' dev (end' dev g).1).2 = [] := by
  cases h : DeviceSettings.initPIGPIO dev <;> simp [end', h]

/-- Sequencing preserves any state predicate preserved by both sides. -/
theorem dseq_frame (P : Driver → Prop) (a : DStep) (f : Driver → DStep)
    (ha : P a.st) (hf : ∀ s, P s → P (f s).st) : P (dseq a f).st := by
  unfold dseq
  cases h : a.exc with
  | some e => simpa using ha
  | none => simpa using hf a.st ha

theorem readGyro_frame (bus : Bus) (s : Driver) :
    (readGyro bus s).st.mx = s.mx ∧ (readGyro bus s).st.my = s.my ∧
    (readGyro bus s).st.mz = s.mz ∧ (readGyro bus s).st.mag = s.mag := by
  unfold readGyro
  split <;> simp

theorem readAccel_frame (bus : Bus) (s : Driver) :
    (readAccel bus s).st.mx = s.mx ∧ (readAccel bus s).st.my = s.my ∧
    (readAccel bus s).st.mz = s.mz ∧ (readAccel bus s).st.mag = s.mag := by
  unfold readAccel
  split <;> simp

theorem readTemp_frame (bus : Bus) (s : Driver) :
    (readTemp bus s).st.mx = s.mx ∧ (readTemp bus s).st.my = s.my ∧
    (readTemp bus s).st.mz = s.mz ∧ (readTemp bus s).st.mag = s.mag := by
  unfold readTemp
  split
  · simp
  · split <;> simp

/-- C9: with the magnetometer configured disabled, the no-argument readMag
burst path performs no transport transaction and changes nothing, and the
magnetometer raw fields survive a whole dataReady acquisition cycle
unchanged. -/
theorem readMag_disabled_noop (bus : Bus) (st : Driver)
    (h : st.mag.enabled = false) :
    readMag bus st = ⟨[], st, none⟩ ∧
    ((dataReady bus st).1).st.mx = st.mx ∧
    ((dataReady bus st).1).st.my = st.my ∧
    ((dataReady bus st).1).st.mz = st.mz := by
  have hmagNoop : ∀ s : Driver, s.mag = st.mag → readMag bus s = ⟨[], s, none⟩ := by
    intro s hs
    have : s.mag.enabled = false := by rw [hs]; exact h
    simp [readMag, this]
  refine ⟨hmagNoop st rfl, ?_⟩
  by_cases hcb : st.lsm9ds1Callback
  · have hchain :
        (dseq (readGyro bus st) fun s =>
         dseq (readAccel bus s) fun s =>
         dseq (readMag bus s) fun s =>
         readTemp bus s).st.mx = st.mx ∧
        (dseq (readGyro bus st) fun s =>
         dseq (readAccel bus s) fun s =>
         dseq (readMag bus s) fun s =>
         readTemp bus s).st.my = st.my ∧
        (dseq (readGyro bus st) fun s =>
         dseq (readAccel bus s) fun s =>
         dseq (readMag bus s) fun s =>
         readTemp bus s).st.mz = st.mz ∧
        (dseq (readGyro bus st) fun s =>
         dseq (readAccel bus s) fun s =>
         dseq (readMag bus s) fun s =>
         readTemp bus s).st.mag = st.mag := by
      refine dseq_frame
        (fun s => s.mx = st.mx ∧ s.my = st.my ∧ s.mz = st.mz ∧ s.mag = st.mag)
        (readGyro bus st) _ (readGyro_frame bus st) ?_
      intro s hP1
      refine dseq_frame
        (fun s => s.mx = st.mx ∧ s.my = st.my ∧ s.mz = st.mz ∧ s.mag = st.mag)
        (readAccel bus s) _ ?_ ?_
      · obtain ⟨h1, h2, h3, h4⟩ := readAccel_frame bus s
        exact ⟨h1.trans hP1.1, h2.trans hP1.2.1, h3.trans hP1.2.2.1, h4.trans hP1.2.2.2⟩
      · intro s2 hP2
        refine dseq_frame
          (fun s => s.mx = st.mx ∧ s.my = st.my ∧ s.mz = st.mz ∧ s.mag = st.mag)
          (readMag bus s2) _ ?_ ?_
        · rw [hmagNoop s2 hP2.2.2.2]
          exact hP2
        · intro s3 hP3
          obtain ⟨h1, h2, h3, h4⟩ := readTemp_frame bus s3
          exact ⟨h1.trans hP3.1, h2.trans hP3.2.1, h3.trans hP3.2.2.1, h4.trans hP3.2.2.2⟩
    have hfst : (dataReady bus st).1 =
        (dseq (readGyro bus st) fun s =>
         dseq (readAccel bus s) fun s =>
         dseq (readMag bus s) fun s =>
         readTemp bus s) := by
      simp only [dataReady, hcb, Bool.not_true, Bool.false_eq_true, if_false]
      split <;> rfl
    rw [hfst]
    exact ⟨hchain.1, hchain.2.1, hchain.2.2.1⟩
  · simp only [Bool.not_eq_true] at hcb
    simp [dataReady, hcb]

/-- Witness for C9 with the magnetometer disabled in the settings. -/
theorem readMag_disabled_noop_witness :
    readMag allOKBus witnessDriverMagOff = ⟨[], witnessDriverMagOff, none⟩ ∧
    ((dataReady allOKBus witnessDriverMagOff).1).st.mx = witnessDriverMagOff.mx :=
  ⟨(readMag_disabled_noop allOKBus witnessDriverMagOff rfl).1,
   (readMag_disabled_noop allOKBus witnessDriverMagOff rfl).2.1⟩

/-- C10: magOffset with axis > 2 is a complete no-op (no write, state
untouched); with axis in 0..2 and an int16 offset it performs exactly two
writes, the offset's low byte to the pair's base register
OFFSET_X_REG_L_M + 2·axis and then its high byte to the next register. -/
theorem magOffset_claim (bus : Bus) (st : Driver) (axis : Nat) (offset : Int)
    (hopen : bus.openOK st.device.mAddress = true)
    (hlo : -32768 ≤ offset) (hhi : offset ≤ 32767) :
    (2 < axis → magOffset bus st axis offset = ⟨[], st, none⟩) ∧
    (axis ≤ 2 → magOffset bus st axis offset =
      ⟨[Op.wr st.device.mAddress (OFFSET_X_REG_L_M + 2 * axis) (toUInt16 offset % 256),
        Op.wr st.device.mAddress (OFFSET_X_REG_L_M + 2 * axis + 1) (toUInt16 offset / 256)],
       st, none⟩) := by
  constructor
  · intro hax; simp [magOffset, hax]
  · intro hax
    have hax2 : ¬ axis > 2 := by omega
    have hlt : toUInt16 offset < 65536 := by
      unfold toUInt16
      have h1 := Int.emod_nonneg offset (show (65536 : Int) ≠ 0 by norm_num)
      have h2 := Int.emod_lt_of_pos offset (show (0 : Int) < 65536 by norm_num)
      omega
    have hlow : toUInt16 offset &&& 0x00FF = toUInt16 offset % 256 := by
      have := Nat.and_pow_two_sub_one_eq_mod (toUInt16 offset) 8
      norm_num at this
      exact this
    have hhigh : (toUInt16 offset &&& 0xFF00) >>> 8 = toUInt16 offset / 256 := by
      rw [highByte_shift, Nat.shiftRight_eq_div_pow]
      have := Nat.and_pow_two_sub_one_eq_mod (toUInt16 offset / 2 ^ 8) 8
      norm_num at this ⊢
      rw [this]
      exact Nat.mod_eq_of_lt (by omega)
    have hreg : OFFSET_X_REG_H_M + 2 * axis = OFFSET_X_REG_L_M + 2 * axis + 1 := by
      unfold OFFSET_X_REG_L_M OFFSET_X_REG_H_M; omega
    simp [magOffset, hax2, mWriteByte, I2CwriteByte, hopen, dseq, wstep, hlow, hhigh, hreg]

/-- Witness for C10: axis 1, offset -2 (bytes 0xFE then 0xFF). -/
theorem magOffset_claim_witness :
    magOffset allOKBus witnessDriver 1 (-2) =
      ⟨[Op.wr 0x1E 0x07 0xFE, Op.wr 0x1E 0x08 0xFF], witnessDriver, none⟩ := by
  have h := (magOffset_claim allOKBus witnessDriver 1 (-2) rfl (by norm_num)
    (by norm_num)).2 (by norm_num)
  rw [h]
  decide

/-- C1: for every valid scale enumerant and every int16 raw value (extremes
included), `calcGyro`/`calcAccel` return raw · scale / 32768 after the
resolution has been computed by `calcgRes`/`calcaRes`, and `calcMag` returns
raw · (fixed sensitivity-table entry) for magnetometer scales 4/8/12/16.
Purity holds by construction: the `calc*` functions take no bus, log no
transaction and return only a number, leaving the state untouched. -/
theorem calc_conversions_correct (st : Driver) (raw : Int)
    (hlo : -32768 ≤ raw) (hhi : raw ≤ 32767)
    (hg : st.gyro.scale = 245 ∨ st.gyro.scale = 500 ∨ st.gyro.scale = 2000)
    (ha : st.accel.scale = 2 ∨ st.accel.scale = 4 ∨ st.accel.scale = 8 ∨
      st.accel.scale = 16) :
    calcGyro (calcgRes st) raw = raw * ((st.gyro.scale : ℚ) / 32768) ∧
    calcAccel (calcaRes st) raw = raw * ((st.accel.scale : ℚ) / 32768) ∧
    (st.mag.scale = 4 → calcMag (calcmRes st) raw = raw * (14 / 100000 : ℚ)) ∧
    (st.mag.scale = 8 → calcMag (calcmRes st) raw = raw * (29 / 100000 : ℚ)) ∧
    (st.mag.scale = 12 → calcMag (calcmRes st) raw = raw * (43 / 100000 : ℚ)) ∧
    (st.mag.scale = 16 → calcMag (calcmRes st) raw = raw * (58 / 100000 : ℚ)) := by
  refine ⟨?_, ?_, ?_, ?_, ?_, ?_⟩
  · simp [calcGyro, calcgRes]; ring
  · simp [calcAccel, calcaRes]; ring
  · intro h; simp [calcMag, calcmRes, h, magSensitivity]; ring
  · intro h; simp [calcMag, calcmRes, h, magSensitivity]; ring
  · intro h; simp [calcMag, calcmRes, h, magSensitivity]; ring
  · intro h; simp [calcMag, calcmRes, h, magSensitivity]; ring

/-- Witness for C1 at the extreme raw value -32768 with scales 245/16/4. -/
theorem calc_conversions_correct_witness :
    calcGyro (calcgRes witnessDriver) (-32768) =
      (-32768 : Int) * ((witnessDriver.gyro.scale : ℚ) / 32768) ∧
    calcAccel (calcaRes witnessDriver) (-32768) =
      (-32768 : Int) * ((witnessDriver.accel.scale : ℚ) / 32768) ∧
    calcMag (calcmRes witnessDriver) (-32768) = (-32768 : Int) * (14 / 100000 : ℚ) := by
  have h := calc_conversions_correct witnessDriver (-32768) (by norm_num) (by norm_num)
    (Or.inl rfl) (Or.inr (Or.inr (Or.inr rfl)))
  exact ⟨h.1, h.2.1, h.2.2.1 rfl⟩

/-- C4 (documents a code defect): a transport failure during the no-argument
readAccel burst read is NOT contained and NO sentinel is stored: the thrown
const char* escapes the catch(int) handler (only an `int` exception would
reach the 999-sentinel assignment), the raw fields keep their stale values,
and the failure propagates out of the dataReady acquisition cycle, which
delivers no sample. -/
theorem readAccel_failure_escapes :
    (readAccel shortBus staleDriver).exc =
      some (CppExc.strExc blockReadErrMsg) ∧
    (readAccel shortBus staleDriver).st = staleDriver ∧
    staleDriver.ax = 7 ∧ staleDriver.ay = 7 ∧ staleDriver.az = 7 ∧
    ((dataReady shortBus staleDriver).1).exc =
      some (CppExc.strExc blockReadErrMsg) ∧
    (dataReady shortBus staleDriver).2 = none := by
  decide

/-- Read-modify-write of a register bit field: after clearing with `keep` and
or-ing an encoding `b` that lies inside the field `scl`, the field holds `b`
and the kept bits are unchanged. -/
theorem rmw_scale_field (r keep scl b : Nat)
    (h1 : keep &&& scl = 0) (h2 : b &&& scl = b) (h3 : b &&& keep = 0) :
    ((r &&& keep) ||| b) &&& scl = b ∧ ((r &&& keep) ||| b) &&& keep = r &&& keep := by
  constructor
  · rw [nat_and_or_right, Nat.and_assoc, h1, Nat.and_zero, Nat.zero_or, h2]
  · rw [nat_and_or_right, Nat.and_assoc, Nat.and_self, h3, Nat.or_zero]

/-- A value shifted left by 5 shares no bits with a mask below 32. -/
theorem shl5_and_small (x m : Nat) (hm : m < 32) : (x <<< 5) &&& m = 0 := by
  apply Nat.eq_of_testBit_eq; intro i
  simp only [Nat.testBit_and, Nat.testBit_shiftLeft, Nat.zero_testBit]
  by_cases h : 5 ≤ i
  · have hf : m.testBit i = false := Nat.testBit_lt_two_pow (lt_of_lt_of_le hm (by
      calc (32 : Nat) = 2 ^ 5 := by norm_num
      _ ≤ 2 ^ i := Nat.pow_le_pow_right (by norm_num) h))
    simp [hf]
  · simp [h]

/-- With a working transport, initGyro performs exactly its six register
writes and leaves the driver state unchanged. -/
theorem initGyro_ok (bus : Bus) (s : Driver)
    (h : bus.openOK s.device.agAddress = true) :
    initGyro bus s =
      ⟨[Op.wr s.device.agAddress CTRL_REG1_G (ctrlReg1GValue s.gyro),
        Op.wr s.device.agAddress CTRL_REG2_G 0x00,
        Op.wr s.device.agAddress CTRL_REG3_G (ctrlReg3GValue s.gyro),
        Op.wr s.device.agAddress CTRL_REG4 (ctrlReg4Value s.gyro),
        Op.wr s.device.agAddress ORIENT_CFG_G (orientCfgGValue s.gyro),
        Op.wr s.device.agAddress INT2_CTRL 2], s, none⟩ := by
  simp [initGyro, dseq, wstep, xgWriteByte, I2CwriteByte, h]

/-- With a working transport, initAccel performs exactly its three register
writes and leaves the driver state unchanged. -/
theorem initAccel_ok (bus : Bus) (s : Driver)
    (h : bus.openOK s.device.agAddress = true) :
    initAccel bus s =
      ⟨[Op.wr s.device.agAddress CTRL_REG5_XL (ctrlReg5XLValue s.accel),
        Op.wr s.device.agAddress CTRL_REG6_XL (ctrlReg6XLValue s.accel),
        Op.wr s.device.agAddress CTRL_REG7_XL (ctrlReg7XLValue s.accel)], s, none⟩ := by
  simp [initAccel, dseq, wstep, xgWriteByte, I2CwriteByte, h]

/-- With a working transport, initMag performs exactly its five register
writes and leaves the driver state unchanged. -/
theorem initMag_ok (bus : Bus) (s : Driver)
    (h : bus.openOK s.device.mAddress = true) :
    initMag bus s =
      ⟨[Op.wr s.device.mAddress CTRL_REG1_M (ctrlReg1MValue s.mag),
        Op.wr s.device.mAddress CTRL_REG2_M (magScaleBits s.mag.scale),
        Op.wr s.device.mAddress CTRL_REG3_M (ctrlReg3MValue s.mag),
        Op.wr s.device.mAddress CTRL_REG4_M (ctrlReg4MValue s.mag),
        Op.wr s.device.mAddress CTRL_REG5_M 0], s, none⟩ := by
  simp [initMag, dseq, wstep, mWriteByte, I2CwriteByte, h]

/- The resolution computations never touch the device wiring. -/
theorem calcgRes_device (s : Driver) : (calcgRes s).device = s.device := rfl

theorem calcaRes_device (s : Driver) : (calcaRes s).device = s.device := rfl

theorem calcmRes_device (s : Driver) : (calcmRes s).device = s.device := by
  simp only [calcmRes]; split_ifs <;> rfl

/- Further frame facts about the resolution computations. -/
theorem calcgRes_gyro (s : Driver) : (calcgRes s).gyro = s.gyro := rfl

theorem calcaRes_gyro (s : Driver) : (calcaRes s).gyro = s.gyro := rfl

theorem calcmRes_gyro (s : Driver) : (calcmRes s).gyro = s.gyro := by
  simp only [calcmRes]; split_ifs <;> rfl

theorem calcgRes_gRes (s : Driver) : (calcgRes s).gRes = (s.gyro.scale : ℚ) / 32768 := rfl

theorem calcaRes_gRes (s : Driver) : (calcaRes s).gRes = s.gRes := rfl

theorem calcmRes_gRes (s : Driver) : (calcmRes s).gRes = s.gRes := by
  simp only [calcmRes]; split_ifs <;> rfl

/-- C3: with the transport reachable, begin succeeds exactly when the two
sub-device identity bytes concatenate (disjoint-bit or, equal to xor here) to
the expected combined constant; for every other byte pair begin throws the
WhoIAm error and its transaction trace contains no register write at all. -/
theorem begin_identity_gate (st : Driver) (bus : Bus) (gs : GyroSettings)
    (acs : AccelSettings) (ms : MagSettings) (ts : TemperatureSettings)
    (mT xT : Nat)
    (hopenM : bus.openOK st.device.mAddress = true)
    (hopenAG : bus.openOK st.device.agAddress = true)
    (hmB : bus.readByteData st.device.mAddress WHO_AM_I_M = (mT : Int))
    (hmT : mT < 256)
    (hxB : bus.readByteData st.device.agAddress WHO_AM_I_XG = (xT : Int))
    (hxT : xT < 256) :
    ((xT <<< 8) ||| mT = (WHO_AM_I_AG_RSP <<< 8) ||| WHO_AM_I_M_RSP →
      (begin bus st gs acs ms ts).exc = none) ∧
    ((xT <<< 8) ||| mT ≠ (WHO_AM_I_AG_RSP <<< 8) ||| WHO_AM_I_M_RSP →
      (begin bus st gs acs ms ts).exc =
        some (CppExc.strExc whoAmIErrMsg) ∧
      writesOf (begin bus st gs acs ms ts).ops = []) := by
  have hm0 : ¬ bus.readByteData st.device.mAddress WHO_AM_I_M < 0 := by
    rw [hmB]; exact not_lt.mpr (Int.natCast_nonneg mT)
  have hx0 : ¬ bus.readByteData st.device.agAddress WHO_AM_I_XG < 0 := by
    rw [hxB]; exact not_lt.mpr (Int.natCast_nonneg xT)
  have hm2 : (bus.readByteData st.device.mAddress WHO_AM_I_M).toNat % 256 = mT := by
    rw [hmB, Int.toNat_natCast]; exact Nat.mod_eq_of_lt hmT
  have hx2 : (bus.readByteData st.device.agAddress WHO_AM_I_XG).toNat % 256 = xT := by
    rw [hxB, Int.toNat_natCast]; exact Nat.mod_eq_of_lt hxT
  constructor
  · intro heq
    simp [begin, mReadByte, xgReadByte, I2CreadByte, calcgRes_device,
      calcaRes_device, calcmRes_device, hopenM, hopenAG, hm0, hx0, hm2, hx2, heq,
      dseq, wstep, initGyro, initAccel, initMag, xgWriteByte, mWriteByte,
      I2CwriteByte]
  · intro hne
    constructor
    · simp [begin, mReadByte, xgReadByte, I2CreadByte, calcgRes_device,
        calcaRes_device, calcmRes_device, hopenM, hopenAG, hm0, hx0, hm2, hx2, hne]
    · simp [begin, mReadByte, xgReadByte, I2CreadByte, calcgRes_device,
        calcaRes_device, calcmRes_device, hopenM, hopenAG, hm0, hx0, hm2, hx2, hne,
        writesOf]

/-- Witness for C3: the good identity pair (0x68, 0x3D) lets begin succeed;
the all-zero pair makes it fail with no register write performed. -/
theorem begin_identity_gate_witness :
    (begin whoAmIGoodBus witnessDriver witnessDriver.gyro witnessDriver.accel
        witnessDriver.mag witnessDriver.temp).exc = none ∧
    (begin whoAmIBadBus witnessDriver witnessDriver.gyro witnessDriver.accel
        witnessDriver.mag witnessDriver.temp).exc =
      some (CppExc.strExc whoAmIErrMsg) ∧
    writesOf (begin whoAmIBadBus witnessDriver witnessDriver.gyro
        witnessDriver.accel witnessDriver.mag witnessDriver.temp).ops = [] := by
  refine ⟨?_, ?_⟩
  · exact (begin_identity_gate witnessDriver whoAmIGoodBus witnessDriver.gyro
      witnessDriver.accel witnessDriver.mag witnessDriver.temp 0x3D 0x68
      rfl rfl rfl (by norm_num) rfl (by norm_num)).1 (by decide)
  · exact (begin_identity_gate witnessDriver whoAmIBadBus witnessDriver.gyro
      witnessDriver.accel witnessDriver.mag witnessDriver.temp 0 0
      rfl rfl rfl (by norm_num) rfl (by norm_num)).2 (by decide)

theorem masked_field_zero (r keep scl : Nat) (h : keep &&& scl = 0) :
    (r &&& keep) &&& scl = 0 := by
  rw [Nat.and_assoc, h, Nat.and_zero]

theorem masked_keep_self (r keep : Nat) : (r &&& keep) &&& keep = r &&& keep := by
  rw [Nat.and_assoc, Nat.and_self]

/-- C2: for every valid scale, each setter leaves the control register with
scale bits encoding the scale (decoding the written field gives the scale
back), preserves all non-scale bits from the prior register value, stores the
scale in the settings, and recomputes the stored resolution constant. -/
theorem setScale_roundtrip (bus : Bus) (st : Driver) (s : Nat)
    (hopenAG : bus.openOK st.device.agAddress = true)
    (hopenM : bus.openOK st.device.mAddress = true)
    (hgB : 0 ≤ bus.readByteData st.device.agAddress CTRL_REG1_G)
    (haB : 0 ≤ bus.readByteData st.device.agAddress CTRL_REG6_XL)
    (hmB : 0 ≤ bus.readByteData st.device.mAddress CTRL_REG2_M) :
    (s = 245 ∨ s = 500 ∨ s = 2000 →
      (setGyroScale bus st s).exc = none ∧
      (setGyroScale bus st s).st.gyro.scale = s ∧
      (setGyroScale bus st s).st.gRes = (s : ℚ) / 32768 ∧
      ∃ w, (setGyroScale bus st s).ops =
          [Op.rdByte st.device.agAddress CTRL_REG1_G,
           Op.wr st.device.agAddress CTRL_REG1_G w] ∧
        w &&& 0x18 = gyroScaleBits s ∧
        gyroScaleOfBits (w &&& 0x18) = s ∧
        w &&& 0xE7 =
          ((bus.readByteData st.device.agAddress CTRL_REG1_G).toNat % 256) &&& 0xE7) ∧
    (s = 2 ∨ s = 4 ∨ s = 8 ∨ s = 16 →
      (setAccelScale bus st s).exc = none ∧
      (setAccelScale bus st s).st.accel.scale = s ∧
      (setAccelScale bus st s).st.aRes = (s : ℚ) / 32768 ∧
      ∃ w, (setAccelScale bus st s).ops =
          [Op.rdByte st.device.agAddress CTRL_REG6_XL,
           Op.wr st.device.agAddress CTRL_REG6_XL w] ∧
        w &&& 0x18 = accelScaleBits s ∧
        accelScaleOfBits (w &&& 0x18) = s ∧
        w &&& 0xE7 =
          ((bus.readByteData st.device.agAddress CTRL_REG6_XL).toNat % 256) &&& 0xE7) ∧
    (s = 4 ∨ s = 8 ∨ s = 12 ∨ s = 16 →
      (setMagScale bus st s).exc = none ∧
      (setMagScale bus st s).st.mag.scale = s ∧
      (setMagScale bus st s).st.mRes =
        (if s = 4 then 14 / 100000 else if s = 8 then 29 / 100000
         else if s = 12 then 43 / 100000 else (58 / 100000 : ℚ)) ∧
      ∃ w, (setMagScale bus st s).ops =
          [Op.rdByte st.device.mAddress CTRL_REG2_M,
           Op.wr st.device.mAddress CTRL_REG2_M w] ∧
        w &&& 0x60 = magScaleBits s ∧
        magScaleOfBits (w &&& 0x60) = s ∧
        w &&& (0xFF ^^^ (0x3 <<< 5)) =
          ((bus.readByteData st.device.mAddress CTRL_REG2_M).toNat % 256) &&&
            (0xFF ^^^ (0x3 <<< 5))) := by
  have hg0 : ¬ bus.readByteData st.device.agAddress CTRL_REG1_G < 0 := not_lt.mpr hgB
  have ha0 : ¬ bus.readByteData st.device.agAddress CTRL_REG6_XL < 0 := not_lt.mpr haB
  have hm0 : ¬ bus.readByteData st.device.mAddress CTRL_REG2_M < 0 := not_lt.mpr hmB
  refine ⟨?_, ?_, ?_⟩
  · intro hs
    rcases hs with rfl | rfl | rfl
    · have hred : setGyroScale bus st 245 =
          ⟨[Op.rdByte st.device.agAddress CTRL_REG1_G,
            Op.wr st.device.agAddress CTRL_REG1_G
              (((bus.readByteData st.device.agAddress CTRL_REG1_G).toNat % 256) &&& 0xE7)],
           calcgRes { st with gyro := { st.gyro with scale := 245 } }, none⟩ := by
        simp [setGyroScale, xgReadByte, I2CreadByte, hopenAG, hg0, dseq, wstep,
          xgWriteByte, I2CwriteByte]
      rw [hred]
      refine ⟨rfl, rfl, by norm_num [calcgRes], _, rfl, ?_, ?_, ?_⟩
      · rw [masked_field_zero _ _ _ (by decide)]; decide
      · rw [masked_field_zero _ _ _ (by decide)]; decide
      · exact masked_keep_self _ _
    · have hred : setGyroScale bus st 500 =
          ⟨[Op.rdByte st.device.agAddress CTRL_REG1_G,
            Op.wr st.device.agAddress CTRL_REG1_G
              ((((bus.readByteData st.device.agAddress CTRL_REG1_G).toNat % 256) &&& 0xE7) ||| 0x08)],
           calcgRes { st with gyro := { st.gyro with scale := 500 } }, none⟩ := by
        simp [setGyroScale, xgReadByte, I2CreadByte, hopenAG, hg0, dseq, wstep,
          xgWriteByte, I2CwriteByte]
      rw [hred]
      have hbits := rmw_scale_field
        ((bus.readByteData st.device.agAddress CTRL_REG1_G).toNat % 256)
        0xE7 0x18 0x08 (by decide) (by decide) (by decide)
      refine ⟨rfl, rfl, by norm_num [calcgRes], _, rfl, ?_, ?_, hbits.2⟩
      · rw [hbits.1]; decide
      · rw [hbits.1]; decide
    · have hred : setGyroScale bus st 2000 =
          ⟨[Op.rdByte st.device.agAddress CTRL_REG1_G,
            Op.wr st.device.agAddress CTRL_REG1_G
              ((((bus.readByteData st.device.agAddress CTRL_REG1_G).toNat % 256) &&& 0xE7) ||| 0x18)],
           calcgRes { st with gyro := { st.gyro with scale := 2000 } }, none⟩ := by
        simp [setGyroScale, xgReadByte, I2CreadByte, hopenAG, hg0, dseq, wstep,
          xgWriteByte, I2CwriteByte]
      rw [hred]
      have hbits := rmw_scale_field
        ((bus.readByteData st.device.agAddress CTRL_REG1_G).toNat % 256)
        0xE7 0x18 0x18 (by decide) (by decide) (by decide)
      refine ⟨rfl, rfl, by norm_num [calcgRes], _, rfl, ?_, ?_, hbits.2⟩
      · rw [hbits.1]; decide
      · rw [hbits.1]; decide
  · intro hs
    rcases hs with rfl | rfl | rfl | rfl
    · have hred : setAccelScale bus st 2 =
          ⟨[Op.rdByte st.device.agAddress CTRL_REG6_XL,
            Op.wr st.device.agAddress CTRL_REG6_XL
              (((bus.readByteData st.device.agAddress CTRL_REG6_XL).toNat % 256) &&& 0xE7)],
           calcaRes { st with accel := { st.accel with scale := 2 } }, none⟩ := by
        simp [setAccelScale, xgReadByte, I2CreadByte, hopenAG, ha0, dseq, wstep,
          xgWriteByte, I2CwriteByte]
      rw [hred]
      refine ⟨rfl, rfl, by norm_num [calcaRes], _, rfl, ?_, ?_, ?_⟩
      · rw [masked_field_zero _ _ _ (by decide)]; decide
      · rw [masked_field_zero _ _ _ (by decide)]; decide
      · exact masked_keep_self _ _
    · have hred : setAccelScale bus st 4 =
          ⟨[Op.rdByte st.device.agAddress CTRL_REG6_XL,
            Op.wr st.device.agAddress CTRL_REG6_XL
              ((((bus.readByteData st.device.agAddress CTRL_REG6_XL).toNat % 256) &&& 0xE7) ||| 0x10)],
           calcaRes { st with accel := { st.accel with scale := 4 } }, none⟩ := by
        simp [setAccelScale, xgReadByte, I2CreadByte, hopenAG, ha0, dseq, wstep,
          xgWriteByte, I2CwriteByte]
      rw [hred]
      have hbits := rmw_scale_field
        ((bus.readByteData st.device.agAddress CTRL_REG6_XL).toNat % 256)
        0xE7 0x18 0x10 (by decide) (by decide) (by decide)
      refine ⟨rfl, rfl, by norm_num [calcaRes], _, rfl, ?_, ?_, hbits.2⟩
      · rw [hbits.1]; decide
      · rw [hbits.1]; decide
    · have hred : setAccelScale bus st 8 =
          ⟨[Op.rdByte st.device.agAddress CTRL_REG6_XL,
            Op.wr st.device.agAddress CTRL_REG6_XL
              ((((bus.readByteData st.device.agAddress CTRL_REG6_XL).toNat % 256) &&& 0xE7) ||| 0x18)],
           calcaRes { st with accel := { st.accel with scale := 8 } }, none⟩ := by
        simp [setAccelScale, xgReadByte, I2CreadByte, hopenAG, ha0, dseq, wstep,
          xgWriteByte, I2CwriteByte]
      rw [hred]
      have hbits := rmw_scale_field
        ((bus.readByteData st.device.agAddress CTRL_REG6_XL).toNat % 256)
        0xE7 0x18 0x18 (by decide) (by decide) (by decide)
      refine ⟨rfl, rfl, by norm_num [calcaRes], _, rfl, ?_, ?_, hbits.2⟩
      · rw [hbits.1]; decide
      · rw [hbits.1]; decide
    · have hred : setAccelScale bus st 16 =
          ⟨[Op.rdByte st.device.agAddress CTRL_REG6_XL,
            Op.wr st.device.agAddress CTRL_REG6_XL
              ((((bus.readByteData st.device.agAddress CTRL_REG6_XL).toNat % 256) &&& 0xE7) ||| 0x08)],
           calcaRes { st with accel := { st.accel with scale := 16 } }, none⟩ := by
        simp [setAccelScale, xgReadByte, I2CreadByte, hopenAG, ha0, dseq, wstep,
          xgWriteByte, I2CwriteByte]
      rw [hred]
      have hbits := rmw_scale_field
        ((bus.readByteData st.device.agAddress CTRL_REG6_XL).toNat % 256)
        0xE7 0x18 0x08 (by decide) (by decide) (by decide)
      refine ⟨rfl, rfl, by norm_num [calcaRes], _, rfl, ?_, ?_, hbits.2⟩
      · rw [hbits.1]; decide
      · rw [hbits.1]; decide
  · intro hs
    rcases hs with rfl | rfl | rfl | rfl
    · have hred : setMagScale bus st 4 =
          ⟨[Op.rdByte st.device.mAddress CTRL_REG2_M,
            Op.wr st.device.mAddress CTRL_REG2_M
              (((bus.readByteData st.device.mAddress CTRL_REG2_M).toNat % 256) &&&
                (0xFF ^^^ (0x3 <<< 5)))],
           calcmRes { st with mag := { st.mag with scale := 4 } }, none⟩ := by
        simp [setMagScale, mReadByte, I2CreadByte, hopenM, hm0, dseq, wstep,
          mWriteByte, I2CwriteByte]
      rw [hred]
      refine ⟨rfl, rfl, by norm_num [calcmRes, magSensitivity], _, rfl, ?_, ?_, ?_⟩
      · rw [masked_field_zero _ _ _ (by decide)]; decide
      · rw [masked_field_zero _ _ _ (by decide)]; decide
      · exact masked_keep_self _ _
    · have hred : setMagScale bus st 8 =
          ⟨[Op.rdByte st.device.mAddress CTRL_REG2_M,
            Op.wr st.device.mAddress CTRL_REG2_M
              ((((bus.readByteData st.device.mAddress CTRL_REG2_M).toNat % 256) &&&
                (0xFF ^^^ (0x3 <<< 5))) ||| 0x20)],
           calcmRes { st with mag := { st.mag with scale := 8 } }, none⟩ := by
        simp [setMagScale, mReadByte, I2CreadByte, hopenM, hm0, dseq, wstep,
          mWriteByte, I2CwriteByte]
      rw [hred]
      have hbits := rmw_scale_field
        ((bus.readByteData st.device.mAddress CTRL_REG2_M).toNat % 256)
        (0xFF ^^^ (0x3 <<< 5)) 0x60 0x20 (by decide) (by decide) (by decide)
      refine ⟨rfl, rfl, by norm_num [calcmRes, magSensitivity], _, rfl, ?_, ?_, hbits.2⟩
      · rw [hbits.1]; decide
      · rw [hbits.1]; decide
    · have hred : setMagScale bus st 12 =
          ⟨[Op.rdByte st.device.mAddress CTRL_REG2_M,
            Op.wr st.device.mAddress CTRL_REG2_M
              ((((bus.readByteData st.device.mAddress CTRL_REG2_M).toNat % 256) &&&
                (0xFF ^^^ (0x3 <<< 5))) ||| 0x40)],
           calcmRes { st with mag := { st.mag with scale := 12 } }, none⟩ := by
        simp [setMagScale, mReadByte, I2CreadByte, hopenM, hm0, dseq, wstep,
          mWriteByte, I2CwriteByte]
      rw [hred]
      have hbits := rmw_scale_field
        ((bus.readByteData st.device.mAddress CTRL_REG2_M).toNat % 256)
        (0xFF ^^^ (0x3 <<< 5)) 0x60 0x40 (by decide) (by decide) (by decide)
      refine ⟨rfl, rfl, by norm_num [calcmRes, magSensitivity], _, rfl, ?_, ?_, hbits.2⟩
      · rw [hbits.1]; decide
      · rw [hbits.1]; decide
    · have hred : setMagScale bus st 16 =
          ⟨[Op.rdByte st.device.mAddress CTRL_REG2_M,
            Op.wr st.device.mAddress CTRL_REG2_M
              ((((bus.readByteData st.device.mAddress CTRL_REG2_M).toNat % 256) &&&
                (0xFF ^^^ (0x3 <<< 5))) ||| 0x60)],
           calcmRes { st with mag := { st.mag with scale := 16 } }, none⟩ := by
        simp [setMagScale, mReadByte, I2CreadByte, hopenM, hm0, dseq, wstep,
          mWriteByte, I2CwriteByte]
      rw [hred]
      have hbits := rmw_scale_field
        ((bus.readByteData st.device.mAddress CTRL_REG2_M).toNat % 256)
        (0xFF ^^^ (0x3 <<< 5)) 0x60 0x60 (by decide) (by decide) (by decide)
      refine ⟨rfl, rfl, by norm_num [calcmRes, magSensitivity], _, rfl, ?_, ?_, hbits.2⟩
      · rw [hbits.1]; decide
      · rw [hbits.1]; decide

/-- Witness for C2 at gyro scale 500, accel scale 16 and mag scale 16. -/
theorem setScale_roundtrip_witness :
    (setGyroScale allOKBus witnessDriver 500).st.gyro.scale = 500 ∧
    (setGyroScale allOKBus witnessDriver 500).st.gRes = (500 : ℚ) / 32768 ∧
    (setAccelScale allOKBus witnessDriver 16).st.accel.scale = 16 ∧
    (setAccelScale allOKBus witnessDriver 16).st.aRes = (16 : ℚ) / 32768 ∧
    (setMagScale allOKBus witnessDriver 16).st.mag.scale = 16 ∧
    (setMagScale allOKBus witnessDriver 16).st.mRes = (58 / 100000 : ℚ) := by
  have hg := (setScale_roundtrip allOKBus witnessDriver 500 rfl rfl (by decide)
    (by decide) (by decide)).1 (Or.inr (Or.inl rfl))
  have ham := setScale_roundtrip allOKBus witnessDriver 16 rfl rfl (by decide)
    (by decide) (by decide)
  have ha := ham.2.1 (Or.inr (Or.inr (Or.inr rfl)))
  have hm := ham.2.2 (Or.inr (Or.inr (Or.inr rfl)))
  refine ⟨hg.2.1, hg.2.2.1, ha.2.1, ha.2.2.1, hm.2.1, ?_⟩
  have h16 := hm.2.2.1
  norm_num at h16 ⊢
  exact h16

/-- Counterexample for C8: applying a configuration carrying the out-of-domain
gyroscope scale 100 (via begin) writes CTRL_REG1_G with the 245 dps encoding
(scale bits 00) and raises no error, but the stored settings scale stays 100
and the stored resolution becomes 100/32768 - NOT consistent with the resolved
default 245, contradicting the claim for the configuration-application path. -/
theorem gyroScale_fallback_counterexample :
    (begin whoAmIGoodBus witnessDriver gyroSettings100 witnessDriver.accel
        witnessDriver.mag witnessDriver.temp).exc = none ∧
    Op.wr 0x6B CTRL_REG1_G (ctrlReg1GValue gyroSettings100) ∈
      (begin whoAmIGoodBus witnessDriver gyroSettings100 witnessDriver.accel
        witnessDriver.mag witnessDriver.temp).ops ∧
    ctrlReg1GValue gyroSettings100 &&& 0x18 = 0 ∧
    (begin whoAmIGoodBus witnessDriver gyroSettings100 witnessDriver.accel
        witnessDriver.mag witnessDriver.temp).st.gyro.scale = 100 ∧
    (begin whoAmIGoodBus witnessDriver gyroSettings100 witnessDriver.accel
        witnessDriver.mag witnessDriver.temp).st.gRes = (100 : ℚ) / 32768 ∧
    ¬ (begin whoAmIGoodBus witnessDriver gyroSettings100 witnessDriver.accel
        witnessDriver.mag witnessDriver.temp).st.gRes = (245 : ℚ) / 32768 := by
  refine ⟨?_, ?_, by decide, ?_, ?_, ?_⟩
  all_goals simp [begin, mReadByte, xgReadByte, I2CreadByte, whoAmIGoodBus,
    witnessDriver, gyroSettings100, calcgRes_device, calcaRes_device,
    calcmRes_device, calcgRes_gyro, calcaRes_gyro, calcmRes_gyro, calcaRes_gRes,
    calcmRes_gRes, calcgRes_gRes, dseq, wstep, initGyro, initAccel, initMag,
    xgWriteByte, mWriteByte, I2CwriteByte, WHO_AM_I_AG_RSP, WHO_AM_I_M_RSP]
  all_goals norm_num

/-- C8 as amended: an out-of-domain gyroscope scale falls back to the 245 dps
register encoding without an error on both paths; the setter also resolves the
stored scale to 245 and recomputes gRes = 245/32768, while configuration
application (initGyro together with the calcgRes begin performs) keeps the
out-of-domain value in the stored settings and computes gRes from it rather
than from the resolved default. -/
theorem gyroScale_fallback_amended (bus : Bus) (st : Driver) (s : Nat)
    (h245 : s ≠ 245) (h500 : s ≠ 500) (h2000 : s ≠ 2000)
    (hopenAG : bus.openOK st.device.agAddress = true)
    (hgB : 0 ≤ bus.readByteData st.device.agAddress CTRL_REG1_G) :
    gyroScaleBits s = 0 ∧
    ctrlReg1GValue { st.gyro with scale := s } &&& 0x18 = 0 ∧
    (initGyro bus { st with gyro := { st.gyro with scale := s } }).exc = none ∧
    (calcgRes { st with gyro := { st.gyro with scale := s } }).gyro.scale = s ∧
    (calcgRes { st with gyro := { st.gyro with scale := s } }).gRes = (s : ℚ) / 32768 ∧
    (setGyroScale bus st s).exc = none ∧
    (setGyroScale bus st s).st.gyro.scale = 245 ∧
    (setGyroScale bus st s).st.gRes = (245 : ℚ) / 32768 ∧
    ∃ w, (setGyroScale bus st s).ops =
        [Op.rdByte st.device.agAddress CTRL_REG1_G,
         Op.wr st.device.agAddress CTRL_REG1_G w] ∧
      w &&& 0x18 = 0 := by
  have hg0 : ¬ bus.readByteData st.device.agAddress CTRL_REG1_G < 0 := not_lt.mpr hgB
  have hb : gyroScaleBits s = 0 := by simp [gyroScaleBits, h500, h2000]
  have hctrl : ctrlReg1GValue { st.gyro with scale := s } &&& 0x18 = 0 := by
    simp only [ctrlReg1GValue, hb]
    rw [Nat.or_zero, nat_and_or_right, shl5_and_small _ _ (by norm_num),
      Nat.and_assoc]
    simp [show (3 : Nat) &&& 24 = 0 from by decide]
  have hred : setGyroScale bus st s =
      ⟨[Op.rdByte st.device.agAddress CTRL_REG1_G,
        Op.wr st.device.agAddress CTRL_REG1_G
          (((bus.readByteData st.device.agAddress CTRL_REG1_G).toNat % 256) &&& 0xE7)],
       calcgRes { st with gyro := { st.gyro with scale := 245 } }, none⟩ := by
    simp [setGyroScale, xgReadByte, I2CreadByte, hopenAG, hg0, h500, h2000,
      dseq, wstep, xgWriteByte, I2CwriteByte]
  refine ⟨hb, hctrl, ?_, rfl, by norm_num [calcgRes], ?_, ?_, ?_, ?_⟩
  · rw [initGyro_ok bus { st with gyro := { st.gyro with scale := s } } hopenAG]
  · rw [hred]
  · rw [hred]; rfl
  · rw [hred]; norm_num [calcgRes]
  · rw [hred]
    exact ⟨_, rfl, by rw [masked_field_zero _ _ _ (by decide)]⟩

/-- Witness for the amended C8 at the out-of-domain scale 100. -/
theorem gyroScale_fallback_amended_witness :
    gyroScaleBits 100 = 0 ∧
    (setGyroScale allOKBus witnessDriver 100).st.gyro.scale = 245 ∧
    (setGyroScale allOKBus witnessDriver 100).st.gRes = (245 : ℚ) / 32768 := by
  have h := gyroScale_fallback_amended allOKBus witnessDriver 100
    (by norm_num) (by norm_num) (by norm_num) rfl (by decide)
  exact ⟨h.1, h.2.2.2.2.2.2.1, h.2.2.2.2.2.2.2.1⟩
